import Mathlib

/-!
Shallow embedding of `src/chatbot-messe.py` (the "Messej" daily-digest email
assistant): the profile store (`load_memory`/`save_memory`), the question
planner (`get_next_question`), the fact extractor
(`update_memory_from_response` with `get_weather_context`), the news fetch
(`get_daily_news_headlines`), the digest composer
(`build_daily_email_content`) and the `main` run loop.

External collaborators (the OpenAI calls, the IMAP/SMTP mail transport, the
news and weather HTTP APIs) are modelled as oracle parameters: each oracle
value is the response the collaborator would give to the single call the code
makes, with `Except`/`Option` for the failure modes the code observes.
Python exceptions are modelled with `Except Unit`; Python dicts are modelled
as insertion-ordered association lists; Python sets are modelled as
deduplicated lists whose order carries no meaning.
-/

/-- JSON-like values, modelling what `json.loads` can return (numbers are
collapsed to `Int`; no claim depends on fractional values). -/
inductive JVal where
  | jnull
  | jbool (b : Bool)
  | jnum (n : Int)
  | jstr (s : String)
  | jarr (elems : List JVal)
  | jobj (fields : List (String × JVal))

/-- Python truthiness of a JSON-shaped value (`if x:`). -/
def JVal.truthy : JVal → Bool
  | .jnull => false
  | .jbool b => b
  | .jnum n => n != 0
  | .jstr s => s != ""
  | .jarr elems => !elems.isEmpty
  | .jobj fields => !fields.isEmpty

/-- First-match association-list lookup; dicts built by this model keep their
keys unique, so first match agrees with Python dict lookup. -/
def listLookup {V : Type} : List (String × V) → String → Option V
  | [], _ => none
  | (a, v) :: t, k => if a = k then some v else listLookup t k

/-- Python `k in d` for a dict: key membership. -/
def hasKeyB {V : Type} : List (String × V) → String → Bool
  | [], _ => false
  | (a, _) :: t, k => if a = k then true else hasKeyB t k

/-- Replace the pair whose key is `a` by `(a, v)`, leaving other pairs
unchanged. -/
def replacePair {V : Type} (a : String) (v : V) (p : String × V) : String × V :=
  if p.1 = a then (a, v) else p

/-- Python `d[k] = v` on an insertion-ordered dict: replace the value in
place when the key is present, append otherwise. -/
def setKey {V : Type} (d : List (String × V)) (k : String) (v : V) : List (String × V) :=
  if hasKeyB d k then d.map (replacePair k v)
  else d ++ [(k, v)]

/-- Python `d.update(e)` where `e` is a dict: key-by-key last-write-wins
overwrite, preserving `d`'s insertion order for existing keys. -/
def dictUpdate {V : Type} (d e : List (String × V)) : List (String × V) :=
  e.foldl (fun acc p => setKey acc p.1 p.2) d

/-- Substring test on character lists (Python `needle in haystack` for
strings). -/
def charListContains (needle : List Char) : List Char → Bool
  | [] => needle.isEmpty
  | c :: t => needle.isPrefixOf (c :: t) || charListContains needle t

/-- Python `k in j` for an arbitrary JSON value: key membership for objects,
element membership for arrays, substring test for strings; a `TypeError`
(modelled as `Except.error`) for null, booleans and numbers. -/
def jHasKey : JVal → String → Except Unit Bool
  | .jobj fields, k => .ok (hasKeyB fields k)
  | .jarr elems, k =>
      .ok (elems.any (fun x => match x with | .jstr s => decide (s = k) | _ => false))
  | .jstr s, k => .ok (charListContains k.data s.data)
  | _, _ => .error ()

/-- Python `j[k]` with a string key: object field access (`KeyError` when the
key is missing); a `TypeError` on any non-object. -/
def jIndex : JVal → String → Except Unit JVal
  | .jobj fields, k =>
      match listLookup fields k with
      | some v => .ok v
      | none => .error ()
  | _, _ => .error ()

/-- Python `d.update(arg)` where `arg` is an arbitrary JSON value: merge when
`arg` is an object, `TypeError` otherwise. (Python additionally accepts an
iterable of key-value pairs; the payload shapes reasoned about in this file
are objects or scalars, and scalar arguments raise exactly as modelled.) -/
def dictUpdateJ (d : List (String × JVal)) : JVal → Except Unit (List (String × JVal))
  | .jobj fields => .ok (dictUpdate d fields)
  | _ => .error ()

/-- Python `str(j)` as interpolated into the question templates; only the
string case is exercised by real profiles. -/
def pyStr : JVal → String
  | .jstr s => s
  | .jnull => "None"
  | .jbool b => if b then "True" else "False"
  | .jnum n => toString n
  | .jarr _ => "[...]"
  | .jobj _ => "\x7b...\x7d"

/-- Membership of a string in a modelled Python set / list of strings. -/
def memB (q : String) : List String → Bool
  | [] => false
  | x :: t => if x = q then true else memB q t

/-- Python `set.add`: append unless already present (insertion-ordered model
of an unordered set). -/
def pySetAdd (s : List String) (q : String) : List String :=
  if memB q s then s else s ++ [q]

/-- One entry of `conversation_history` as appended by
`update_memory_from_response`. -/
structure HistEntry where
  timestamp : String
  user_message : String
  extracted_info : JVal

/-- The weather snapshot dict returned by `get_weather_context` (temperatures
collapsed to `Int`; no claim depends on their values). -/
structure WeatherInfo where
  condition : String
  description : String
  temp : Int
  feels_like : Int
  humidity : Int
  local_time : Option String

/-- The `weather_context` field of the profile. -/
structure WeatherCtx where
  last_checked : Option String
  conditions : Option WeatherInfo

/-- The in-memory profile dict. Python sets (`topics_discussed`,
`questions_asked`) are modelled as deduplicated lists; `pending_question`
models both "key absent" and "value None" as `none` (the code only ever reads
it through `memory.get`). -/
structure Memory where
  user_info : List (String × JVal)
  core_attributes : List (String × JVal)
  conversation_history : List HistEntry
  topics_discussed : List String
  questions_asked : List String
  pending_question : Option String
  last_interaction : Option String
  weather_context : WeatherCtx

/-- The fresh `core_attributes` dict built by `load_memory` when no prior
state exists. -/
def initialCoreAttributes : List (String × JVal) :=
  [("location", .jnull), ("timezone", .jnull), ("weather_preference", .jnull),
   ("daily_routine", .jnull), ("local_interests", .jnull), ("season_preference", .jnull)]

/-- The empty memory structure `load_memory` returns on a missing or corrupt
file. -/
def initialMemory : Memory :=
  { user_info := []
    core_attributes := initialCoreAttributes
    conversation_history := []
    topics_discussed := []
    questions_asked := []
    pending_question := none
    last_interaction := none
    weather_context := { last_checked := none, conditions := none } }

/-- The JSON document written by `save_memory`: the same fields with the two
sets serialized as plain lists. -/
structure StoredMemory where
  user_info : List (String × JVal)
  core_attributes : List (String × JVal)
  conversation_history : List HistEntry
  topics_discussed : List String
  questions_asked : List String
  pending_question : Option String
  last_interaction : Option String
  weather_context : WeatherCtx

/-- `save_memory`: convert the two sets to lists and dump the whole record
(whole-document overwrite). -/
def save_memory (m : Memory) : StoredMemory :=
  { user_info := m.user_info
    core_attributes := m.core_attributes
    conversation_history := m.conversation_history
    topics_discussed := m.topics_discussed
    questions_asked := m.questions_asked
    pending_question := m.pending_question
    last_interaction := m.last_interaction
    weather_context := m.weather_context }

/-- `load_memory`: `none` models a missing or unparsable file
(`FileNotFoundError`/`JSONDecodeError` are swallowed and the empty structure
returned); otherwise the two list fields are rehydrated as sets
(`set(list)`, modelled as deduplication). -/
def load_memory : Option StoredMemory → Memory
  | none => initialMemory
  | some s =>
      { user_info := s.user_info
        core_attributes := s.core_attributes
        conversation_history := s.conversation_history
        topics_discussed := s.topics_discussed.dedup
        questions_asked := s.questions_asked.dedup
        pending_question := s.pending_question
        last_interaction := s.last_interaction
        weather_context := s.weather_context }

/-- The five location-prompt variants, in source order. -/
def location_questions : List String :=
  ["I'd love to know what city/area you live in! It would help me share more relevant updates and chat about local happenings.",
   "I'm always curious about different places - where are you writing from?",
   "I'd love to add some local context to our chats. Which city/area do you call home?",
   "Speaking of places, I'd love to know where you're based! What city/area are you in?",
   "I bet there are interesting things happening in your area! Where are you located?"]

/-- The fallback location prompt returned once every variant has been
asked. -/
def fallback_location_question : String :=
  "I notice I still don't know where you're based - I'd love to make our conversations more locally relevant. What city/area are you in?"

def timezone_question : String :=
  "To help me time these emails better, could you let me know what timezone you're in?"

def weather_preference_question (location : String) : String :=
  "How do you typically feel about the weather in " ++ location ++ "? Any favorite conditions?"

def daily_routine_question : String :=
  "Are you more of an early bird or a night owl? I want to make sure I'm catching you at a good time!"

def local_interests_question (location : String) : String :=
  "What kind of local activities or spots do you enjoy in " ++ location ++ "?"

def season_preference_question (location : String) : String :=
  "With the weather patterns in " ++ location ++ ", do you have a favorite season? What makes it special?"

/-- The secondary-topic questions, in source (dict insertion) order. -/
def basic_questions : List (String × String) :=
  [("name", "I'd love to know what you prefer to be called. What name should I use?"),
   ("interests", "I'm curious about what interests you. What are some things you enjoy doing?"),
   ("work", "What kind of work do you do?"),
   ("learning", "Is there anything specific you're learning or want to learn about lately?"),
   ("goals", "Do you have any particular goals you're working towards?"),
   ("news_preferences", "Are there specific types of news topics you're most interested in?"),
   ("fun_facts", "Do you have any favorite topics for the random facts I share?")]

/-- Truthiness of `core_attributes.get(k)` (missing key and falsy value both
fail the `if not ...` tests). -/
def attrTruthy : Option JVal → Bool
  | none => false
  | some v => v.truthy

/-- `memory["core_attributes"].get(k)` in the planner. -/
def coreAttr (m : Memory) (k : String) : Option JVal :=
  listLookup m.core_attributes k

/-- `core_attributes['location']` interpolated into a template; only reached
after its truthiness test succeeded, so the default is never observed. -/
def coreAttrStr (m : Memory) (k : String) : String :=
  pyStr ((listLookup m.core_attributes k).getD .jnull)

/-- Truthiness of `memory.get("pending_question")`. -/
def pendingTruthy : Option String → Bool
  | none => false
  | some s => s != ""

/-- The `for question in location_questions: if question not in asked: return
question` loop. -/
def firstUnasked : List String → List String → Option String
  | [], _ => none
  | q :: rest, asked => if memB q asked then firstUnasked rest asked else some q

/-- The `for topic, question in basic_questions.items()` loop: first topic
missing from `user_info` whose question is also missing from
`questions_asked`. -/
def firstBasic (m : Memory) : List (String × String) → Option String
  | [] => none
  | (topic, question) :: rest =>
      if !hasKeyB m.user_info topic && !memB question m.questions_asked then some question
      else firstBasic m rest

/-- `get_next_question`: the question planner, with the source's branch
order — location variants (with fallback), then the remaining core
attributes, then the pending-question gate, then the secondary topics. -/
def get_next_question (m : Memory) : Option String :=
  if !attrTruthy (coreAttr m "location") then
    match firstUnasked location_questions m.questions_asked with
    | some q => some q
    | none => some fallback_location_question
  else if !attrTruthy (coreAttr m "timezone") then
    some timezone_question
  else if !attrTruthy (coreAttr m "weather_preference") then
    some (weather_preference_question (coreAttrStr m "location"))
  else if !attrTruthy (coreAttr m "daily_routine") then
    some daily_routine_question
  else if !attrTruthy (coreAttr m "local_interests") then
    some (local_interests_question (coreAttrStr m "location"))
  else if !attrTruthy (coreAttr m "season_preference") then
    some (season_preference_question (coreAttrStr m "location"))
  else if pendingTruthy m.pending_question then none
  else firstBasic m basic_questions

/-- `get_weather_context`: returns `None` when the API key is missing or the
location is falsy; otherwise the collaborator's response, where `none` also
covers every exception path (geocoding failure, malformed payload), all
swallowed by the function's catch-all. -/
def get_weather_context (weatherApiKey : Bool) (location : JVal)
    (apiResponse : Option WeatherInfo) : Option WeatherInfo :=
  if !weatherApiKey || !location.truthy then none
  else apiResponse

/-- Truthiness of the `email_text` argument (`if not email_text:`); `none`
models a missing value. -/
def strOptTruthy : Option String → Bool
  | none => false
  | some s => s != ""

/-- The body of `update_memory_from_response` after the empty-text guard.
`llmResult = none` models the extraction call raising or its output failing
`json.loads`; both are caught before any state is touched. A parsed payload
is applied step-by-step exactly as in the source: the `core_attributes`
merge, the `user_info` merge, the weather snapshot, then clearing
`pending_question`, appending the history entry and stamping
`last_interaction`. A step that raises (modelled by `Except.error`) is
caught by the surrounding handler, and the memory as mutated so far is
returned. -/
def update_memory_core (m : Memory) (email_summary : String) (llmResult : Option JVal)
    (weatherApiKey : Bool) (weatherApi : Option WeatherInfo) (now : String) : Memory :=
  match llmResult with
  | none => m
  | some extracted_info =>
    match jHasKey extracted_info "core_attributes" with
    | .error _ => m
    | .ok hasCore =>
      let coreStep : Except Unit (List (String × JVal)) :=
        if hasCore then
          match jIndex extracted_info "core_attributes" with
          | .error e => .error e
          | .ok payload => dictUpdateJ m.core_attributes payload
        else .ok m.core_attributes
      match coreStep with
      | .error _ => m
      | .ok core1 =>
        let m1 : Memory := { m with core_attributes := core1 }
        match jHasKey extracted_info "user_info" with
        | .error _ => m1
        | .ok hasUser =>
          let userStep : Except Unit (List (String × JVal)) :=
            if hasUser then
              match jIndex extracted_info "user_info" with
              | .error e => .error e
              | .ok payload => dictUpdateJ m1.user_info payload
            else .ok m1.user_info
          match userStep with
          | .error _ => m1
          | .ok user1 =>
            let m2 : Memory := { m1 with user_info := user1 }
            let newWeather : WeatherCtx :=
              if attrTruthy (listLookup m2.core_attributes "location") then
                match get_weather_context weatherApiKey
                    ((listLookup m2.core_attributes "location").getD .jnull) weatherApi with
                | some wd => { last_checked := some now, conditions := some wd }
                | none => m2.weather_context
              else m2.weather_context
            { m2 with
                weather_context := newWeather
                pending_question := none
                conversation_history :=
                  m2.conversation_history ++ [⟨now, email_summary, extracted_info⟩]
                last_interaction := some now }

/-- `update_memory_from_response`: the fact extractor. An empty or missing
`email_text` returns the memory untouched before any call is made. -/
def update_memory_from_response (m : Memory) (email_text : Option String)
    (email_summary : String) (llmResult : Option JVal)
    (weatherApiKey : Bool) (weatherApi : Option WeatherInfo) (now : String) : Memory :=
  if !strOptTruthy email_text then m
  else update_memory_core m email_summary llmResult weatherApiKey weatherApi now

/-- One article as returned by the news API on success (all three fields
present, as built by the comprehension in `get_daily_news_headlines`). -/
structure Article where
  title : String
  url : String
  source : String

/-- A news item as passed around the digest pipeline: a dict that may or may
not carry each key (the placeholder items carry only `title` and `url`). -/
def NewsDict : Type := List (String × JVal)

/-- `get_daily_news_headlines`: missing `NEWS_API_KEY` yields a single
placeholder item; any exception in the fetch (modelled by `Except.error` from
the API oracle, whose message is interpolated into the title) yields a single
error-placeholder item; on success each article becomes a three-key dict.
The function itself never raises. -/
def get_daily_news_headlines (newsApiKey : Bool)
    (api : Except String (List Article)) : List NewsDict :=
  if !newsApiKey then
    [[("title", .jstr "No NEWS_API_KEY found. Please set it in your .env file."), ("url", .jnull)]]
  else
    match api with
    | .error e => [[("title", .jstr ("Error fetching news: " ++ e)), ("url", .jnull)]]
    | .ok articles =>
        articles.map (fun a =>
          [("title", .jstr a.title), ("url", .jstr a.url), ("source", .jstr a.source)])

/-- Dict indexing `d[k]` in the news formatter: `KeyError` when absent. -/
def dictIndex (d : NewsDict) (k : String) : Except Unit JVal :=
  match listLookup d k with
  | some v => .ok v
  | none => .error ()

/-- One line of `news_formatted` in `build_daily_email_content`; the f-string
evaluates `title`, `source`, `url` in that order, raising `KeyError` on the
first missing key. -/
def formatNewsLine (news : NewsDict) : Except Unit String := do
  let t ← dictIndex news "title"
  let s ← dictIndex news "source"
  let u ← dictIndex news "url"
  pure ("- " ++ pyStr t ++ " (from " ++ pyStr s ++ ") - Read more: " ++ pyStr u)

/-- The `news_formatted` list comprehension joined with newlines. -/
def formatNews (news_list : List NewsDict) : Except Unit String := do
  let lines ← news_list.mapM formatNewsLine
  pure (String.intercalate "\n" lines)

/-- The time-of-day bucket computed from the wall-clock hour. -/
def time_of_day (hour : Nat) : String :=
  if 4 ≤ hour ∧ hour < 12 then "morning"
  else if 12 ≤ hour ∧ hour < 17 then "afternoon"
  else "evening"

/-- `build_daily_email_content`: formats the news list (which can raise
`KeyError`), selects the next question, delegates prose assembly to the
text-generation oracle (failure propagates — no handler), and only after the
oracle returned does it record a selected question as pending and asked.
Returns the composed body together with the updated memory. -/
def build_daily_email_content (inline_response : String) (news_list : List NewsDict)
    (random_fact : String) (m : Memory) (daily_gossip : String)
    (llmCompose : Except Unit String) (hour : Nat) : Except Unit (String × Memory) := do
  let news_formatted ← formatNews news_list
  let tod := time_of_day hour
  let next_question := get_next_question m
  let body ← llmCompose
  let m2 : Memory :=
    match next_question with
    | some q =>
        { m with pending_question := some q, questions_asked := pySetAdd m.questions_asked q }
    | none => m
  let _ := news_formatted
  let _ := tod
  let _ := (inline_response, random_fact, daily_gossip)
  pure (body, m2)

/-- The collaborator responses observed during one `main` run: the profile
file contents, the fetched emails, and each external call's outcome. -/
structure Collab where
  stored : Option StoredMemory
  emails : List (String × String)
  summarizeLLM : String → Except Unit String
  extractLLM : String → Option JVal
  weatherApiKey : Bool
  weatherApi : Option WeatherInfo
  inlineLLM : Except Unit String
  newsApiKey : Bool
  newsApi : Except String (List Article)
  factLLM : Except Unit String
  gossipLLM : Except Unit String
  composeLLM : Except Unit String
  send : Except Unit Unit
  now : String
  hour : Nat

/-- The per-email loop in `main`: summarize (a failure propagates — the
`raise` in `summarize_email_gpt` is not caught by the loop), then merge into
memory; summaries are collected in arrival order. -/
def processEmails (c : Collab) : List (String × String) → Memory → Except Unit (Memory × List String)
  | [], m => .ok (m, [])
  | (_, body_text) :: rest, m => do
    let summary ← c.summarizeLLM body_text
    let m2 := update_memory_from_response m (some body_text) summary (c.extractLLM body_text)
      c.weatherApiKey c.weatherApi c.now
    let (m3, sums) ← processEmails c rest m2
    pure (m3, summary :: sums)

/-- The tail of `main` after the inline reply was generated: fetch news,
generate fact and gossip, compose the digest, send it, and only then save
the memory. The first component is the run outcome; the second is the
profile file written by `save_memory`, `none` when the run ended before
reaching the save. -/
def runRest (c : Collab) (mem1 : Memory) (inline_response : String) :
    Except Unit Unit × Option StoredMemory :=
  let news_list := get_daily_news_headlines c.newsApiKey c.newsApi
  match c.factLLM with
  | .error e => (.error e, none)
  | .ok random_fact =>
    match c.gossipLLM with
    | .error e => (.error e, none)
    | .ok daily_gossip =>
      match build_daily_email_content inline_response news_list random_fact mem1
          daily_gossip c.composeLLM c.hour with
      | .error e => (.error e, none)
      | .ok (_, mem2) =>
        match c.send with
        | .error e => (.error e, none)
        | .ok _ => (.ok (), some (save_memory mem2))

/-- `main`: load memory, process the inbound emails (a summarization failure
propagates), generate the inline reply (a failure propagates), then run the
rest of the pipeline (`runRest`). -/
def runMain (c : Collab) : Except Unit Unit × Option StoredMemory :=
  let memory := load_memory c.stored
  match processEmails c c.emails memory with
  | .error e => (.error e, none)
  | .ok (mem1, summaries) =>
    match (if summaries.isEmpty
        then (.ok "(No new emails to respond to today.)" : Except Unit String)
        else c.inlineLLM) with
    | .error e => (.error e, none)
    | .ok inline_response => runRest c mem1 inline_response

/-- A well-formed extraction payload: both sections present and each a JSON
object, as the prompt instructs the model to produce. -/
def wfPayload (cd ud : List (String × JVal)) : JVal :=
  .jobj [("core_attributes", .jobj cd), ("user_info", .jobj ud)]

/-- Profile with every location variant and the fallback already asked, and
location still unknown. -/
def c2w_mem : Memory :=
  { initialMemory with
      questions_asked := location_questions ++ [fallback_location_question] }

/-- Fresh profile that already has a pending question but no location. -/
def c1_mem : Memory :=
  { initialMemory with
      pending_question := some "Do you have any particular goals you're working towards?" }

/-- Profile with all six core attributes known and a pending question. -/
def c1w_mem : Memory :=
  { initialMemory with
      core_attributes :=
        [("location", .jstr "Austin, Texas"), ("timezone", .jstr "America/Chicago"),
         ("weather_preference", .jstr "loves sunshine"), ("daily_routine", .jstr "early bird"),
         ("local_interests", .jstr "live music"), ("season_preference", .jstr "autumn")]
      pending_question := some "What kind of work do you do?" }

/-- A parsed payload whose `core_attributes` section is a well-formed object
but whose `user_info` section is a number — malformed structured data. -/
def c3_payload : JVal :=
  .jobj [("core_attributes", .jobj [("location", .jstr "Paris")]), ("user_info", .jnum 5)]

/-- The placeholder item produced when `NEWS_API_KEY` is missing: no
`source` key. -/
def c4_placeholder : NewsDict :=
  [("title", .jstr "No NEWS_API_KEY found. Please set it in your .env file."), ("url", .jnull)]

/-- A run with two inbound emails where summarization of the first one
raises and everything else would succeed. -/
def c5_collab : Collab :=
  { stored := none
    emails := [("ChatBot", "first email"), ("ChatBot", "I live in Austin, Texas")]
    summarizeLLM := fun t => if t = "first email" then .error () else .ok "a short summary"
    extractLLM := fun _ => some (wfPayload [("location", .jstr "Austin, Texas")] [])
    weatherApiKey := false
    weatherApi := none
    inlineLLM := .ok "inline reply"
    newsApiKey := true
    newsApi := .ok [⟨"Headline", "https://example.com/a", "Example News"⟩]
    factLLM := .ok "a fact"
    gossipLLM := .ok "some gossip"
    composeLLM := .ok "email body"
    send := .ok ()
    now := "2025-01-01T09:00:00"
    hour := 9 }

/-- A fully successful run: one inbound email, every collaborator
responding. -/
def c9_collab : Collab :=
  { stored := none
    emails := [("ChatBot", "I live in Austin, Texas")]
    summarizeLLM := fun _ => .ok "user says they live in Austin"
    extractLLM := fun _ =>
      some (wfPayload [("location", .jstr "Austin, Texas")] [("name", .jstr "Jay")])
    weatherApiKey := true
    weatherApi := some ⟨"Clear", "clear sky", 25, 26, 40, none⟩
    inlineLLM := .ok "inline reply"
    newsApiKey := true
    newsApi := .ok [⟨"Headline", "https://example.com/a", "Example News"⟩]
    factLLM := .ok "a fact"
    gossipLLM := .ok "some gossip"
    composeLLM := .ok "email body"
    send := .ok ()
    now := "2025-01-01T09:00:00"
    hour := 9 }

theorem listLookup_append {V : Type} (d1 d2 : List (String × V)) (k : String) :
    listLookup (d1 ++ d2) k =
      match listLookup d1 k with
      | some v => some v
      | none => listLookup d2 k := by
  induction d1 with
  | nil => simp [listLookup]
  | cons p t ih =>
    obtain ⟨a, v⟩ := p
    simp only [List.cons_append, listLookup]
    by_cases hak : a = k
    · simp [hak]
    · simp only [if_neg hak]
      exact ih

theorem hasKeyB_false_lookup {V : Type} (d : List (String × V)) (a : String)
    (h : hasKeyB d a = false) : listLookup d a = none := by
  induction d with
  | nil => rfl
  | cons p t ih =>
    obtain ⟨b, w⟩ := p
    simp only [hasKeyB] at h
    by_cases hba : b = a
    · simp [hba] at h
    · simp only [listLookup, if_neg hba]
      simp only [if_neg hba] at h
      exact ih h

theorem listLookup_replace_eq {V : Type} (d : List (String × V)) (a : String) (v : V)
    (h : hasKeyB d a = true) :
    listLookup (d.map (replacePair a v)) a = some v := by
  induction d with
  | nil => simp [hasKeyB] at h
  | cons p t ih =>
    obtain ⟨b, w⟩ := p
    simp only [List.map_cons]
    by_cases hba : b = a
    · rw [show replacePair a v (b, w) = (a, v) from by simp [replacePair, hba]]
      simp [listLookup]
    · rw [show replacePair a v (b, w) = (b, w) from by simp [replacePair, hba]]
      simp only [listLookup, if_neg hba]
      apply ih
      simp only [hasKeyB, if_neg hba] at h
      exact h

theorem listLookup_replace_ne {V : Type} (d : List (String × V)) (a k : String) (v : V)
    (h : a ≠ k) :
    listLookup (d.map (replacePair a v)) k = listLookup d k := by
  induction d with
  | nil => rfl
  | cons p t ih =>
    obtain ⟨b, w⟩ := p
    simp only [List.map_cons]
    by_cases hba : b = a
    · rw [show replacePair a v (b, w) = (a, v) from by simp [replacePair, hba]]
      have hbk : ¬b = k := by rw [hba]; exact h
      simp only [listLookup, if_neg h, if_neg hbk]
      exact ih
    · rw [show replacePair a v (b, w) = (b, w) from by simp [replacePair, hba]]
      simp only [listLookup]
      by_cases hbk : b = k
      · simp [hbk]
      · simp only [if_neg hbk]
        exact ih

theorem listLookup_setKey {V : Type} (d : List (String × V)) (a k : String) (v : V) :
    listLookup (setKey d a v) k = if a = k then some v else listLookup d k := by
  unfold setKey
  by_cases hk : hasKeyB d a = true
  · simp only [if_pos hk]
    by_cases hak : a = k
    · subst hak
      simp only [if_pos rfl]
      exact listLookup_replace_eq d a v hk
    · simp only [if_neg hak]
      exact listLookup_replace_ne d a k v hak
  · simp only [Bool.not_eq_true] at hk
    simp only [hk, Bool.false_eq_true, if_false, listLookup_append]
    by_cases hak : a = k
    · subst hak
      rw [hasKeyB_false_lookup d a hk]
      simp [listLookup]
    · simp only [listLookup, if_neg hak]
      cases listLookup d k with
      | none => rfl
      | some w => rfl

theorem listLookup_dictUpdate {V : Type} (e d : List (String × V)) (k : String) :
    listLookup (dictUpdate d e) k =
      match listLookup e.reverse k with
      | some v => some v
      | none => listLookup d k := by
  induction e generalizing d with
  | nil => simp [dictUpdate, listLookup]
  | cons p e2 ih =>
    obtain ⟨a, v⟩ := p
    show listLookup (dictUpdate (setKey d a v) e2) k = _
    rw [ih (setKey d a v)]
    simp only [List.reverse_cons, listLookup_append]
    cases listLookup e2.reverse k with
    | some w => rfl
    | none =>
      simp only [listLookup, listLookup_setKey]
      by_cases hak : a = k
      · simp [hak]
      · simp [hak]

theorem dictUpdate_lookup_idem {V : Type} (d e : List (String × V)) (k : String) :
    listLookup (dictUpdate (dictUpdate d e) e) k = listLookup (dictUpdate d e) k := by
  rw [listLookup_dictUpdate, listLookup_dictUpdate]
  cases listLookup e.reverse k with
  | some v => rfl
  | none => rfl

theorem firstUnasked_eq_find (l asked : List String) :
    firstUnasked l asked = l.find? (fun q => !memB q asked) := by
  induction l with
  | nil => rfl
  | cons q rest ih =>
    simp only [firstUnasked, List.find?]
    by_cases hq : memB q asked = true
    · simp [hq, ih]
    · simp only [Bool.not_eq_true] at hq
      simp [hq]

theorem firstUnasked_none_of_all (l asked : List String)
    (h : ∀ q ∈ l, memB q asked = true) : firstUnasked l asked = none := by
  induction l with
  | nil => rfl
  | cons q rest ih =>
    simp only [firstUnasked, h q (by simp), if_true]
    exact ih (fun q2 hq2 => h q2 (by simp [hq2]))

theorem update_text_truthy (m : Memory) (email_text : Option String)
    (email_summary now : String) (llmResult : Option JVal)
    (weatherApiKey : Bool) (weatherApi : Option WeatherInfo)
    (het : strOptTruthy email_text = true) :
    update_memory_from_response m email_text email_summary llmResult
      weatherApiKey weatherApi now =
    update_memory_core m email_summary llmResult weatherApiKey weatherApi now := by
  unfold update_memory_from_response
  rw [het]
  rfl

theorem get_weather_context_none (weatherApiKey : Bool) (location : JVal) :
    get_weather_context weatherApiKey location none = none := by
  unfold get_weather_context
  split <;> rfl

theorem update_wf_fields (m : Memory) (email_text : Option String)
    (email_summary now : String) (weatherApiKey : Bool) (weatherApi : Option WeatherInfo)
    (cd ud : List (String × JVal)) (het : strOptTruthy email_text = true) :
    (update_memory_from_response m email_text email_summary (some (wfPayload cd ud))
        weatherApiKey weatherApi now).core_attributes = dictUpdate m.core_attributes cd
    ∧ (update_memory_from_response m email_text email_summary (some (wfPayload cd ud))
        weatherApiKey weatherApi now).user_info = dictUpdate m.user_info ud
    ∧ (update_memory_from_response m email_text email_summary (some (wfPayload cd ud))
        weatherApiKey weatherApi now).pending_question = none
    ∧ (update_memory_from_response m email_text email_summary (some (wfPayload cd ud))
        weatherApiKey weatherApi now).conversation_history =
        m.conversation_history ++ [⟨now, email_summary, wfPayload cd ud⟩]
    ∧ (update_memory_from_response m email_text email_summary (some (wfPayload cd ud))
        weatherApiKey weatherApi now).last_interaction = some now
    ∧ (weatherApi = none →
        (update_memory_from_response m email_text email_summary (some (wfPayload cd ud))
          weatherApiKey weatherApi now).weather_context = m.weather_context) := by
  rw [update_text_truthy m email_text email_summary now (some (wfPayload cd ud))
    weatherApiKey weatherApi het]
  refine ⟨rfl, rfl, rfl, rfl, rfl, ?_⟩
  intro hw
  subst hw
  show (if attrTruthy (listLookup (dictUpdate m.core_attributes cd) "location") then _ else _) = _
  rw [get_weather_context_none]
  exact ite_self m.weather_context

/-- C10: calling the fact extractor with an empty or missing raw email text
returns the profile completely unmodified; the result does not depend on any
collaborator oracle (extraction result, weather key, weather response), so
no external call can influence it, no history entry is appended,
`pending_question` is not cleared, and `last_interaction` and
`weather_context` are unchanged. -/
theorem c10_empty_email_text_is_noop (m : Memory) (email_summary now : String)
    (llmResult : Option JVal) (weatherApiKey : Bool) (weatherApi : Option WeatherInfo) :
    update_memory_from_response m none email_summary llmResult
      weatherApiKey weatherApi now = m
    ∧ update_memory_from_response m (some "") email_summary llmResult
      weatherApiKey weatherApi now = m :=
  ⟨rfl, rfl⟩

/-- C6: saving a profile and loading it back yields `questions_asked` and
`topics_discussed` equal as sets (order-insensitive membership) to the
originals, and all remaining fields — `last_interaction` and the individual
core-attribute values included — equal to the originals. -/
theorem c6_save_load_roundtrip (m : Memory) :
    (∀ q : String,
      q ∈ (load_memory (some (save_memory m))).questions_asked ↔ q ∈ m.questions_asked)
    ∧ (∀ t : String,
      t ∈ (load_memory (some (save_memory m))).topics_discussed ↔ t ∈ m.topics_discussed)
    ∧ (load_memory (some (save_memory m))).last_interaction = m.last_interaction
    ∧ (load_memory (some (save_memory m))).core_attributes = m.core_attributes
    ∧ (load_memory (some (save_memory m))).user_info = m.user_info
    ∧ (load_memory (some (save_memory m))).conversation_history = m.conversation_history
    ∧ (load_memory (some (save_memory m))).pending_question = m.pending_question
    ∧ (load_memory (some (save_memory m))).weather_context = m.weather_context := by
  refine ⟨fun q => ?_, fun t => ?_, rfl, rfl, rfl, rfl, rfl, rfl⟩
  · show q ∈ (save_memory m).questions_asked.dedup ↔ q ∈ m.questions_asked
    exact List.mem_dedup
  · show t ∈ (save_memory m).topics_discussed.dedup ↔ t ∈ m.topics_discussed
    exact List.mem_dedup

/-- C2: for a profile missing `location`, the planner returns the first of
the five fixed variants not yet in `questions_asked`, and the fixed fallback
once none remains; the fallback case puts no condition on `questions_asked`
containing the fallback, so it repeats. -/
theorem c2_location_prompt_selection (m : Memory)
    (h : attrTruthy (coreAttr m "location") = false) :
    get_next_question m =
      some ((location_questions.find? (fun q => !memB q m.questions_asked)).getD
        fallback_location_question)
    ∧ ((∀ q ∈ location_questions, memB q m.questions_asked = true) →
        get_next_question m = some fallback_location_question) := by
  have hbranch : get_next_question m =
      match firstUnasked location_questions m.questions_asked with
      | some q => some q
      | none => some fallback_location_question := by
    unfold get_next_question
    rw [h]
    rfl
  constructor
  · rw [hbranch, firstUnasked_eq_find]
    cases List.find? (fun q => !memB q m.questions_asked) location_questions with
    | some q => rfl
    | none => rfl
  · intro hall
    rw [hbranch, firstUnasked_none_of_all location_questions m.questions_asked hall]

theorem c2_location_prompt_selection_witness :
    attrTruthy (coreAttr c2w_mem "location") = false
    ∧ get_next_question c2w_mem =
        some ((location_questions.find? (fun q => !memB q c2w_mem.questions_asked)).getD
          fallback_location_question) :=
  ⟨rfl, (c2_location_prompt_selection c2w_mem rfl).1⟩

/-- C1 fails on the code: the pending-question gate sits after the
core-attribute branches, so a profile with a pending question and a missing
location still receives a (new) location question. -/
theorem c1_counterexample_pending_not_gating :
    c1_mem.pending_question =
      some "Do you have any particular goals you're working towards?"
    ∧ get_next_question c1_mem ≠ none := by
  constructor
  · rfl
  · decide

/-- C1 amended: once all six core attributes are set, a non-empty
`pending_question` makes the planner return none. -/
theorem c1_amended_pending_gates_secondary_topics (m : Memory)
    (hloc : attrTruthy (coreAttr m "location") = true)
    (htz : attrTruthy (coreAttr m "timezone") = true)
    (hwp : attrTruthy (coreAttr m "weather_preference") = true)
    (hdr : attrTruthy (coreAttr m "daily_routine") = true)
    (hli : attrTruthy (coreAttr m "local_interests") = true)
    (hsp : attrTruthy (coreAttr m "season_preference") = true)
    (hp : pendingTruthy m.pending_question = true) :
    get_next_question m = none := by
  unfold get_next_question
  rw [hloc, htz, hwp, hdr, hli, hsp, hp]
  rfl

theorem c1_amended_pending_gates_secondary_topics_witness :
    attrTruthy (coreAttr c1w_mem "location") = true
    ∧ pendingTruthy c1w_mem.pending_question = true
    ∧ get_next_question c1w_mem = none :=
  ⟨rfl, rfl, c1_amended_pending_gates_secondary_topics c1w_mem rfl rfl rfl rfl rfl rfl rfl⟩

theorem update_text_falsy (m : Memory) (email_text : Option String)
    (email_summary now : String) (llmResult : Option JVal)
    (weatherApiKey : Bool) (weatherApi : Option WeatherInfo)
    (het : strOptTruthy email_text = false) :
    update_memory_from_response m email_text email_summary llmResult
      weatherApiKey weatherApi now = m := by
  unfold update_memory_from_response
  rw [het]
  rfl

/-- C7: merging the same extraction payload into a profile twice yields the
same `core_attributes` and `user_info` values (key-by-key lookup) as merging
it once — the key-by-key last-write-wins overwrite is idempotent. -/
theorem c7_merge_idempotent (m : Memory) (email_text : Option String)
    (email_summary now : String) (weatherApiKey : Bool) (weatherApi : Option WeatherInfo)
    (cd ud : List (String × JVal)) (k : String) :
    listLookup (update_memory_from_response
        (update_memory_from_response m email_text email_summary (some (wfPayload cd ud))
          weatherApiKey weatherApi now)
        email_text email_summary (some (wfPayload cd ud))
        weatherApiKey weatherApi now).core_attributes k =
      listLookup (update_memory_from_response m email_text email_summary
        (some (wfPayload cd ud)) weatherApiKey weatherApi now).core_attributes k
    ∧ listLookup (update_memory_from_response
        (update_memory_from_response m email_text email_summary (some (wfPayload cd ud))
          weatherApiKey weatherApi now)
        email_text email_summary (some (wfPayload cd ud))
        weatherApiKey weatherApi now).user_info k =
      listLookup (update_memory_from_response m email_text email_summary
        (some (wfPayload cd ud)) weatherApiKey weatherApi now).user_info k := by
  by_cases het : strOptTruthy email_text = true
  · have h1 := update_wf_fields m email_text email_summary now
      weatherApiKey weatherApi cd ud het
    have h2 := update_wf_fields
      (update_memory_from_response m email_text email_summary (some (wfPayload cd ud))
        weatherApiKey weatherApi now)
      email_text email_summary now weatherApiKey weatherApi cd ud het
    constructor
    · rw [h2.1, h1.1]
      exact dictUpdate_lookup_idem m.core_attributes cd k
    · rw [h2.2.1, h1.2.1]
      exact dictUpdate_lookup_idem m.user_info ud k
  · have hf : strOptTruthy email_text = false := by
      cases hx : strOptTruthy email_text
      · rfl
      · exact absurd hx het
    rw [update_text_falsy m email_text email_summary now (some (wfPayload cd ud))
        weatherApiKey weatherApi hf,
      update_text_falsy m email_text email_summary now (some (wfPayload cd ud))
        weatherApiKey weatherApi hf]
    exact ⟨rfl, rfl⟩

/-- C8: on a profile whose location is known after the merge, a failed or
empty weather response leaves `weather_context` exactly as it was, while the
merges, the pending-question clearing, the history append and the
`last_interaction` stamp all still happen. -/
theorem c8_weather_failure_leaves_context (m : Memory) (email_text : Option String)
    (email_summary now : String) (weatherApiKey : Bool) (cd ud : List (String × JVal))
    (het : strOptTruthy email_text = true)
    (hloc : attrTruthy (listLookup (dictUpdate m.core_attributes cd) "location") = true) :
    (update_memory_from_response m email_text email_summary (some (wfPayload cd ud))
        weatherApiKey none now).weather_context = m.weather_context
    ∧ (update_memory_from_response m email_text email_summary (some (wfPayload cd ud))
        weatherApiKey none now).core_attributes = dictUpdate m.core_attributes cd
    ∧ (update_memory_from_response m email_text email_summary (some (wfPayload cd ud))
        weatherApiKey none now).user_info = dictUpdate m.user_info ud
    ∧ (update_memory_from_response m email_text email_summary (some (wfPayload cd ud))
        weatherApiKey none now).pending_question = none
    ∧ (update_memory_from_response m email_text email_summary (some (wfPayload cd ud))
        weatherApiKey none now).conversation_history =
        m.conversation_history ++ [⟨now, email_summary, wfPayload cd ud⟩]
    ∧ (update_memory_from_response m email_text email_summary (some (wfPayload cd ud))
        weatherApiKey none now).last_interaction = some now := by
  have h := update_wf_fields m email_text email_summary now weatherApiKey none cd ud het
  exact ⟨h.2.2.2.2.2 rfl, h.1, h.2.1, h.2.2.1, h.2.2.2.1, h.2.2.2.2.1⟩

theorem c8_weather_failure_leaves_context_witness :
    strOptTruthy (some "I live in Austin, Texas") = true
    ∧ attrTruthy (listLookup
        (dictUpdate initialMemory.core_attributes [("location", JVal.jstr "Austin, Texas")])
        "location") = true
    ∧ (update_memory_from_response initialMemory (some "I live in Austin, Texas")
        "says they live in Austin"
        (some (wfPayload [("location", JVal.jstr "Austin, Texas")] [("name", JVal.jstr "Jay")]))
        true none "2025-01-01T09:00:00").weather_context = initialMemory.weather_context :=
  ⟨rfl, rfl,
    (c8_weather_failure_leaves_context initialMemory (some "I live in Austin, Texas")
      "says they live in Austin" "2025-01-01T09:00:00" true
      [("location", JVal.jstr "Austin, Texas")] [("name", JVal.jstr "Jay")] rfl rfl).1⟩

/-- C3 fails on the code: on this malformed payload the `core_attributes`
merge runs before the `user_info` merge raises, and the catch-all handler
then returns the partially modified profile, not the unmodified one. -/
theorem c3_counterexample_partial_mutation :
    update_memory_from_response initialMemory (some "I moved to Paris") "user moved to Paris"
      (some c3_payload) false none "2025-01-01T09:00:00" ≠ initialMemory := by
  intro hcontra
  have h1 : listLookup (update_memory_from_response initialMemory (some "I moved to Paris")
      "user moved to Paris" (some c3_payload) false none
      "2025-01-01T09:00:00").core_attributes "location" = some (JVal.jstr "Paris") := rfl
  rw [hcontra] at h1
  have h2 : listLookup initialMemory.core_attributes "location" = some JVal.jnull := rfl
  rw [h2] at h1
  exact JVal.noConfusion (Option.some.inj h1)

/-- C3 amended: a failed call or unparsable output returns the profile
unmodified, as does a scalar payload (the membership test raises before any
mutation); an object payload whose `core_attributes` merge succeeds but
whose `user_info` value is malformed keeps the `core_attributes` merge and
leaves every other field unmodified; in all cases the failure is contained
(the extractor always returns a profile). -/
theorem c3_amended_failure_containment (m : Memory) (email_text : Option String)
    (email_summary now : String) (weatherApiKey : Bool) (weatherApi : Option WeatherInfo)
    (cd : List (String × JVal)) (n : Int)
    (het : strOptTruthy email_text = true) :
    update_memory_from_response m email_text email_summary none
        weatherApiKey weatherApi now = m
    ∧ update_memory_from_response m email_text email_summary (some (.jnum n))
        weatherApiKey weatherApi now = m
    ∧ update_memory_from_response m email_text email_summary
        (some (.jobj [("core_attributes", .jobj cd), ("user_info", .jnum n)]))
        weatherApiKey weatherApi now =
      { m with core_attributes := dictUpdate m.core_attributes cd } := by
  refine ⟨?_, ?_, ?_⟩
  · rw [update_text_truthy m email_text email_summary now none
      weatherApiKey weatherApi het]
    rfl
  · rw [update_text_truthy m email_text email_summary now (some (.jnum n))
      weatherApiKey weatherApi het]
    rfl
  · rw [update_text_truthy m email_text email_summary now
      (some (.jobj [("core_attributes", .jobj cd), ("user_info", .jnum n)]))
      weatherApiKey weatherApi het]
    rfl

theorem c3_amended_failure_containment_witness :
    strOptTruthy (some "hello there") = true
    ∧ update_memory_from_response initialMemory (some "hello there") "a greeting" none
        false none "2025-01-01T09:00:00" = initialMemory :=
  ⟨rfl, (c3_amended_failure_containment initialMemory (some "hello there") "a greeting"
    "2025-01-01T09:00:00" false none [("location", JVal.jstr "Paris")] 5 rfl).1⟩

/-- C4's first half holds: the news fetch degrades to a single placeholder
item on missing credentials and on fetch failure, and (being a total
function) never raises. Its second half fails on the code: digest
composition hits a `KeyError` on the placeholder's missing `source` key
while building `news_formatted`, so it raises instead of proceeding. -/
theorem c4_placeholder_breaks_composer :
    get_daily_news_headlines false (.ok []) = [c4_placeholder]
    ∧ get_daily_news_headlines true (.error "connection refused") =
        [[("title", .jstr "Error fetching news: connection refused"), ("url", .jnull)]]
    ∧ formatNewsLine c4_placeholder = .error ()
    ∧ build_daily_email_content "(No new emails to respond to today.)" [c4_placeholder]
        "a fact" initialMemory "some gossip" (.ok "email body") 9 = .error () :=
  ⟨rfl, rfl, rfl, rfl⟩

/-- C5 fails on the code (the spec itself flags the inconsistency):
`summarize_email_gpt` re-raises and the `main` loop has no handler, so the
first email's summarization failure aborts the whole run — the second email,
whose summarization would have succeeded, is never processed and nothing is
persisted. -/
theorem c5_summarize_failure_aborts_run :
    c5_collab.summarizeLLM "first email" = .error ()
    ∧ c5_collab.summarizeLLM "I live in Austin, Texas" = .ok "a short summary"
    ∧ processEmails c5_collab c5_collab.emails (load_memory c5_collab.stored) = .error ()
    ∧ runMain c5_collab = (.error (), none) :=
  ⟨rfl, rfl, rfl, rfl⟩

theorem runRest_save_needs_send (c : Collab) (mem1 : Memory) (inline_response : String)
    (h : ((runRest c mem1 inline_response).2).isSome = true) :
    c.send = Except.ok () ∧ (runRest c mem1 inline_response).1 = Except.ok () := by
  simp only [runRest] at h ⊢
  cases hfact : c.factLLM with
  | error e => simp only [hfact] at h; simp at h
  | ok random_fact =>
    simp only [hfact] at h ⊢
    cases hgossip : c.gossipLLM with
    | error e => simp only [hgossip] at h; simp at h
    | ok daily_gossip =>
      simp only [hgossip] at h ⊢
      cases hbuild : build_daily_email_content inline_response
          (get_daily_news_headlines c.newsApiKey c.newsApi) random_fact mem1
          daily_gossip c.composeLLM c.hour with
      | error e => simp only [hbuild] at h; simp at h
      | ok pr2 =>
        obtain ⟨body, mem2⟩ := pr2
        simp only [hbuild] at h ⊢
        cases hsend : c.send with
        | error e => simp only [hsend] at h; simp at h
        | ok u =>
          cases u
          exact ⟨rfl, by simp only [hsend]⟩

/-- C9: whenever a run writes the profile store, the outbound send succeeded
and the run completed; contrapositively a digest-composition failure or a
send failure (both of which abort the run) leaves the profile
unpersisted. -/
theorem c9_save_only_after_successful_send (c : Collab)
    (h : ((runMain c).2).isSome = true) :
    c.send = Except.ok () ∧ (runMain c).1 = Except.ok () := by
  simp only [runMain] at h ⊢
  cases hpe : processEmails c c.emails (load_memory c.stored) with
  | error e => simp only [hpe] at h; simp at h
  | ok pr =>
    obtain ⟨mem1, summaries⟩ := pr
    simp only [hpe] at h ⊢
    cases hin : (if summaries.isEmpty
        then (Except.ok "(No new emails to respond to today.)" : Except Unit String)
        else c.inlineLLM) with
    | error e => simp only [hin] at h; simp at h
    | ok inline_response =>
      simp only [hin] at h ⊢
      exact runRest_save_needs_send c mem1 inline_response h

theorem c9_save_only_after_successful_send_witness :
    ((runMain c9_collab).2).isSome = true
    ∧ c9_collab.send = Except.ok ()
    ∧ (runMain c9_collab).1 = Except.ok () :=
  ⟨rfl, (c9_save_only_after_successful_send c9_collab rfl).1,
    (c9_save_only_after_successful_send c9_collab rfl).2⟩
